import Mathlib

/-!
Shallow embedding of the GitLab project access token controller
(provider-gitlab, `pkg/controller/projects/accesstokens` and
`apis/projects/v1alpha1`).

Time instants and durations are modelled as unbounded integers counting
nanoseconds, matching Go's `time.Time` (wall clock) and `time.Duration`.
Go's zero time is midnight UTC, so `Truncate(24h)` is flooring to a
multiple of 24h. Optional (pointer) fields are `Option`, maps and slices
are lists, and the remote GitLab client is an oracle function passed to
each operation; each operation also returns the list of remote calls it
performed, in order, so that "no remote call happens" is expressible.
-/

namespace GitlabAccessTokens

/-- One hour in nanoseconds (Go `time.Hour`). -/
def hourNs : Int := 3600 * 1000000000

/-- `DefaultAccessTokenMaxDuration = 365 * 24 * time.Hour` from the v1alpha1 types file. -/
def DefaultAccessTokenMaxDuration : Int := 365 * 24 * hourNs

/-- `DefaultAccessTokenRotateThreshold = 7 * 24 * time.Hour` from the controller file. -/
def DefaultAccessTokenRotateThreshold : Int := 7 * 24 * hourNs

/-- Go `time.Duration.Abs` (the `math.MinInt64` saturation case does not
arise in the unbounded-integer model). -/
def durAbs (d : Int) : Int := if d < 0 then -d else d

/-- Go `t.Truncate(24 * time.Hour)`: round down to a multiple of 24h since
the zero time (midnight UTC). -/
def truncDay (t : Int) : Int := t - t.emod (24 * hourNs)

/-- `v1alpha1.AccessTokenObservation`: the observed state persisted in
`Status.AtProvider`. All fields are pointers in Go. -/
structure AccessTokenObservation where
  TokenID   : Option Int
  ExpiresAt : Option Int
  CreatedAt : Option Int
  Name      : Option String
  Revoked   : Option Bool
  Active    : Option Bool
deriving Repr, DecidableEq

/-- `v1alpha1.AccessTokenParameters`: the desired state
(`Spec.ForProvider`). Reference/selector fields are omitted: the
controller never reads them. -/
structure AccessTokenParameters where
  ProjectID       : Option String
  ExpiresAt       : Option Int
  RotateThreshold : Option Int
  AccessLevel     : Option Int
  Scopes          : List String
  Name            : String
deriving Repr, DecidableEq

/-- `gitlab.ProjectAccessToken`: the record returned by the remote
service. `ID`, `Name`, `Revoked`, `Active`, `AccessLevel` and `Token` are
plain values in Go; `CreatedAt` and `ExpiresAt` are pointers. -/
structure ProjectAccessToken where
  ID          : Int
  Name        : String
  Revoked     : Bool
  Active      : Bool
  CreatedAt   : Option Int
  ExpiresAt   : Option Int
  AccessLevel : Int
  Token       : String
deriving Repr, DecidableEq

/-- `AccessTokenObservation.IsRevoked`. -/
def IsRevoked (o : AccessTokenObservation) : Bool :=
  match o.Revoked with
  | none => false
  | some b => b

/-- `AccessTokenObservation.ExpiresWithin`. `now` is Go's `time.Now()`
made explicit; `Before` is strict. -/
def ExpiresWithin (o : AccessTokenObservation) (d : Int) (now : Int) : Bool :=
  match o.ExpiresAt with
  | none => false
  | some e => decide (e - durAbs d < now)

/-- `AccessTokenObservation.TotalDuration`. -/
def TotalDuration (o : AccessTokenObservation) : Int :=
  match o.ExpiresAt, o.CreatedAt with
  | some e, some c => e - c
  | _, _ => DefaultAccessTokenMaxDuration

/-- `AccessTokenObservation.CopyFromToken`: mutates the receiver in Go;
here it returns the updated observation. `CreatedAt` and `ExpiresAt` are
assigned only when present on the fetched record. -/
def CopyFromToken (o : AccessTokenObservation) (t : ProjectAccessToken) :
    AccessTokenObservation :=
  { o with
    TokenID := some t.ID
    Name := some t.Name
    Active := some t.Active
    Revoked := some t.Revoked
    CreatedAt := match t.CreatedAt with
      | some c => some c
      | none => o.CreatedAt
    ExpiresAt := match t.ExpiresAt with
      | some e => some e
      | none => o.ExpiresAt }

/-- `lateInitializeProjectAccessToken`: fills the empty fields in the
access token spec with the values seen in the gitlab access token. The Go
function receives a possibly-nil pointer to the token. -/
def lateInitializeProjectAccessToken (p : AccessTokenParameters)
    (accessToken : Option ProjectAccessToken) : AccessTokenParameters :=
  match accessToken with
  | none => p
  | some t =>
    let p1 := if p.AccessLevel.isNone then
        { p with AccessLevel := some t.AccessLevel }
      else p
    if p1.ExpiresAt.isNone && t.ExpiresAt.isSome then
      { p1 with ExpiresAt := t.ExpiresAt }
    else p1

/-- Decimal digit string to a natural number; `none` when empty or when a
non-digit appears. Helper for the `strconv.Atoi` model. -/
def digitsToNat (cs : List Char) : Option Nat :=
  match cs with
  | [] => none
  | _ =>
    cs.foldl
      (fun acc c =>
        acc.bind (fun n => if c.isDigit then some (n * 10 + (c.toNat - 48)) else none))
      (some 0)

/-- Go `strconv.Atoi` (base 10, optional leading sign, 64-bit range
check). The error strings follow Go's `*strconv.NumError` format. -/
def Atoi (s : String) : Except String Int :=
  let signed : Option Int :=
    match s.data with
    | '+' :: rest => (digitsToNat rest).map (fun n => (n : Int))
    | '-' :: rest => (digitsToNat rest).map (fun n => -(n : Int))
    | l => (digitsToNat l).map (fun n => (n : Int))
  match signed with
  | none => .error ("strconv.Atoi: parsing \"" ++ s ++ "\": invalid syntax")
  | some n =>
    if -(2 ^ 63) ≤ n ∧ n < 2 ^ 63 then .ok n
    else .error ("strconv.Atoi: parsing \"" ++ s ++ "\": value out of range")

/-- Go `strconv.Itoa`. -/
def Itoa (n : Int) : String := toString n

/-- Error values. `simple` is `errors.New msg`; `wrapped cause msg` is
`errors.Wrap(err, msg)` where `cause` is the wrapped error's message. -/
inductive Err where
  | simple (msg : String)
  | wrapped (cause : String) (msg : String)
deriving Repr, DecidableEq

def errNotAccessToken : String := "managed resource is not a Gitlab accesstoken custom resource"

def errExternalNameNotInt : String := "custom resource external name is not an integer"

def errFailedParseID : String := "cannot parse Access Token ID to int"

def errCreateFailed : String := "cannot create Gitlab accesstoken"

def errDeleteFailed : String := "cannot delete Gitlab accesstoken"

def errAccessTokentNotFound : String := "cannot find Gitlab accesstoken"

def errMissingProjectID : String := "missing Spec.ForProvider.ProjectID"

def errRotationFailed : String := "access token rotation failed"

/-- The managed `v1alpha1.AccessToken` resource as the controller sees
it: the external-name annotation (`""` when absent, as
`meta.GetExternalName` reports), the desired spec, the observed status
and the object name (`cr.Name`, used when creating). -/
structure AccessToken where
  ExternalName : String
  ForProvider  : AccessTokenParameters
  AtProvider   : AccessTokenObservation
  ObjectName   : String
deriving Repr, DecidableEq

/-- A remote GitLab API call, recorded in the order the controller
issues them. -/
inductive RemoteCall where
  | fetchTok (pid : String) (id : Int)
  | createTok (pid : String)
  | rotateTok (pid : String) (id : Int) (expiresAt : Int)
  | revokeTok (pid : String) (id : Int)
deriving Repr, DecidableEq

/-- Outcome of `GetProjectAccessToken` plus the
`clients.IsResponseNotFound` classification of its response. -/
inductive FetchResult where
  | ok (t : ProjectAccessToken)
  | notFound
  | transportErr (msg : String)
deriving Repr, DecidableEq

/-- `managed.ExternalObservation` (the fields this controller sets). -/
structure ExternalObservation where
  ResourceExists          : Bool
  ResourceUpToDate        : Bool
  ResourceLateInitialized : Bool
deriving Repr, DecidableEq

/-- The zero `managed.ExternalObservation{}` value. -/
def emptyObservation : ExternalObservation :=
  { ResourceExists := false, ResourceUpToDate := false, ResourceLateInitialized := false }

/-- `managed.ExternalCreation` (the fields this controller sets);
`ConnectionDetails` is the secret map as an association list. -/
structure ExternalCreation where
  ExternalNameAssigned : Bool
  ConnectionDetails    : List (String × String)
deriving Repr, DecidableEq

/-- `managed.ExternalUpdate` (the fields this controller sets). -/
structure ExternalUpdate where
  ConnectionDetails : List (String × String)
deriving Repr, DecidableEq

/-- Result of a Go function call that can also crash: `nilPanic` marks a
nil-pointer dereference (a runtime panic, not a returned error). -/
inductive GoResult (α : Type) where
  | ok (a : α)
  | err (e : Err)
  | nilPanic
deriving Repr, DecidableEq

/-- What `external.Observe` returns and does: the observation and error
returned, the resource after any in-place mutation, and the remote calls
made. -/
structure ObserveOutcome where
  obs   : ExternalObservation
  error : Option Err
  cr    : AccessToken
  calls : List RemoteCall
deriving Repr, DecidableEq

/-- `external.Observe`. `fetch` is the remote
`GetProjectAccessToken` oracle; `now` is `time.Now()` made explicit. -/
def Observe (fetch : String → Int → FetchResult) (now : Int) (cr : AccessToken) :
    ObserveOutcome :=
  if cr.ExternalName = "" then
    ⟨emptyObservation, none, cr, []⟩
  else
    match Atoi cr.ExternalName with
    | .error e => ⟨emptyObservation, some (.wrapped e errFailedParseID), cr, []⟩
    | .ok accessTokenID =>
      match cr.ForProvider.ProjectID with
      | none => ⟨emptyObservation, some (.simple errMissingProjectID), cr, []⟩
      | some pid =>
        match fetch pid accessTokenID with
        | .notFound =>
          ⟨emptyObservation, none, cr, [.fetchTok pid accessTokenID]⟩
        | .transportErr msg =>
          ⟨emptyObservation, some (.wrapped msg errAccessTokentNotFound), cr,
            [.fetchTok pid accessTokenID]⟩
        | .ok t =>
          let atProvider := CopyFromToken cr.AtProvider t
          let current := cr.ForProvider
          let forProvider := lateInitializeProjectAccessToken cr.ForProvider (some t)
          let threshold := match current.RotateThreshold with
            | some d => durAbs d
            | none => DefaultAccessTokenRotateThreshold
          ⟨{ ResourceExists := true
             ResourceUpToDate := !(IsRevoked atProvider) && !(ExpiresWithin atProvider threshold now)
             ResourceLateInitialized := decide (¬ current = forProvider) },
           none,
           { cr with AtProvider := atProvider, ForProvider := forProvider },
           [.fetchTok pid accessTokenID]⟩

/-- `gitlab.CreateProjectAccessTokenOptions` (the fields the controller
fills). -/
structure CreateProjectAccessTokenOptions where
  Name        : Option String
  Scopes      : Option (List String)
  ExpiresAt   : Option Int
  AccessLevel : Option Int
deriving Repr, DecidableEq

/-- `projects.GenerateCreateProjectAccessTokenOptions`. -/
def GenerateCreateProjectAccessTokenOptions (name : String)
    (p : AccessTokenParameters) : CreateProjectAccessTokenOptions :=
  let opts : CreateProjectAccessTokenOptions :=
    { Name := some name, Scopes := some p.Scopes, ExpiresAt := none, AccessLevel := none }
  let opts := if p.ExpiresAt.isSome then { opts with ExpiresAt := p.ExpiresAt } else opts
  if p.AccessLevel.isSome then { opts with AccessLevel := p.AccessLevel } else opts

/-- What `external.Create` returns and does. -/
structure CreateOutcome where
  creation : ExternalCreation
  error    : Option Err
  cr       : AccessToken
  calls    : List RemoteCall
deriving Repr, DecidableEq

/-- `external.Create`. `createRemote` is the remote
`CreateProjectAccessToken` oracle. -/
def Create (createRemote : String → CreateProjectAccessTokenOptions →
    Except String ProjectAccessToken) (cr : AccessToken) : CreateOutcome :=
  match cr.ForProvider.ProjectID with
  | none => ⟨⟨false, []⟩, some (.simple errMissingProjectID), cr, []⟩
  | some pid =>
    match createRemote pid (GenerateCreateProjectAccessTokenOptions cr.ObjectName cr.ForProvider) with
    | .error e => ⟨⟨false, []⟩, some (.wrapped e errCreateFailed), cr, [.createTok pid]⟩
    | .ok t =>
      ⟨{ ExternalNameAssigned := true, ConnectionDetails := [("token", t.Token)] },
       none,
       { cr with AtProvider := CopyFromToken cr.AtProvider t, ExternalName := Itoa t.ID },
       [.createTok pid]⟩

/-- What `external.Update` returns and does; `GoResult` captures the
nil-pointer dereference the Go code can hit. -/
structure UpdateOutcome where
  result : GoResult ExternalUpdate
  cr     : AccessToken
  calls  : List RemoteCall
deriving Repr, DecidableEq

/-- `external.Update` (rotation). `rotate` is the remote
`RotateProjectAccessToken` oracle, taking the project id, token id and
requested `ExpiresAt`. The Go code dereferences
`*cr.Spec.ForProvider.ProjectID` while building the rotate call's
arguments without a nil check, so an unset `ProjectID` is a nil-pointer
panic before the remote call, modelled by `GoResult.nilPanic`. -/
def Update (rotate : String → Int → Int → Except String ProjectAccessToken)
    (now : Int) (cr : AccessToken) : UpdateOutcome :=
  if cr.ExternalName = "" then
    ⟨.err (.simple errNotAccessToken), cr, []⟩
  else
    match Atoi cr.ExternalName with
    | .error e => ⟨.err (.wrapped e errFailedParseID), cr, []⟩
    | .ok accessTokenID =>
      let ttl0 := TotalDuration cr.AtProvider
      let ttl := match cr.ForProvider.RotateThreshold with
        | some d => max ttl0 (d * 2)
        | none => ttl0
      let expiresAt := truncDay (now + ttl)
      match cr.ForProvider.ProjectID with
      | none => ⟨.nilPanic, cr, []⟩
      | some pid =>
        match rotate pid accessTokenID expiresAt with
        | .error e =>
          ⟨.err (.wrapped e errRotationFailed), cr, [.rotateTok pid accessTokenID expiresAt]⟩
        | .ok t =>
          ⟨.ok { ConnectionDetails := [("token", t.Token)] },
           { cr with AtProvider := CopyFromToken cr.AtProvider t, ExternalName := Itoa t.ID },
           [.rotateTok pid accessTokenID expiresAt]⟩

/-- What `external.Delete` returns and does. -/
structure DeleteOutcome where
  error : Option Err
  cr    : AccessToken
  calls : List RemoteCall
deriving Repr, DecidableEq

/-- `external.Delete`. `revoke` is the remote `RevokeProjectAccessToken`
oracle, returning the error message when it fails. `errors.Wrap(nil, msg)`
is nil in Go, hence the `Option.map`. -/
def Delete (revoke : String → Int → Option String) (cr : AccessToken) : DeleteOutcome :=
  match Atoi cr.ExternalName with
  | .error _ => ⟨some (.simple errExternalNameNotInt), cr, []⟩
  | .ok accessTokenID =>
    match cr.ForProvider.ProjectID with
    | none => ⟨some (.simple errMissingProjectID), cr, []⟩
    | some pid =>
      ⟨(revoke pid accessTokenID).map (fun e => .wrapped e errDeleteFailed), cr,
       [.revokeTok pid accessTokenID]⟩

/-- The effective rotation threshold Observe compares against: the
absolute value of the desired `RotateThreshold` when set, the 7-day
default otherwise. -/
def effectiveThreshold (p : AccessTokenParameters) : Int :=
  match p.RotateThreshold with
  | some d => durAbs d
  | none => DefaultAccessTokenRotateThreshold

/-! ## Helper lemmas -/

theorem lateInit_eq (p : AccessTokenParameters) (t : ProjectAccessToken) :
    lateInitializeProjectAccessToken p (some t) =
      { p with
        AccessLevel := if p.AccessLevel = none then some t.AccessLevel else p.AccessLevel
        ExpiresAt := if p.ExpiresAt = none ∧ t.ExpiresAt ≠ none then t.ExpiresAt
          else p.ExpiresAt } := by
  obtain ⟨pid, pe, prt, pal, ps, pn⟩ := p
  unfold lateInitializeProjectAccessToken
  rcases pal with _ | a <;> rcases pe with _ | e <;>
    rcases hT : t.ExpiresAt with _ | te <;> simp [hT]

theorem lateInit_projectID (p : AccessTokenParameters) (tok : Option ProjectAccessToken) :
    (lateInitializeProjectAccessToken p tok).ProjectID = p.ProjectID := by
  cases tok with
  | none => rfl
  | some t => rw [lateInit_eq]

theorem lateInit_name (p : AccessTokenParameters) (tok : Option ProjectAccessToken) :
    (lateInitializeProjectAccessToken p tok).Name = p.Name := by
  cases tok with
  | none => rfl
  | some t => rw [lateInit_eq]

theorem lateInit_scopes (p : AccessTokenParameters) (tok : Option ProjectAccessToken) :
    (lateInitializeProjectAccessToken p tok).Scopes = p.Scopes := by
  cases tok with
  | none => rfl
  | some t => rw [lateInit_eq]

theorem lateInit_rotateThreshold (p : AccessTokenParameters) (tok : Option ProjectAccessToken) :
    (lateInitializeProjectAccessToken p tok).RotateThreshold = p.RotateThreshold := by
  cases tok with
  | none => rfl
  | some t => rw [lateInit_eq]

theorem lateInit_accessLevel_set (p : AccessTokenParameters) (tok : Option ProjectAccessToken)
    (h : p.AccessLevel.isSome) :
    (lateInitializeProjectAccessToken p tok).AccessLevel = p.AccessLevel := by
  cases tok with
  | none => rfl
  | some t =>
    rw [lateInit_eq]
    simpa using fun hn => absurd (hn ▸ h) (by simp)

theorem lateInit_expiresAt_set (p : AccessTokenParameters) (tok : Option ProjectAccessToken)
    (h : p.ExpiresAt.isSome) :
    (lateInitializeProjectAccessToken p tok).ExpiresAt = p.ExpiresAt := by
  cases tok with
  | none => rfl
  | some t =>
    rw [lateInit_eq]
    simpa using fun hn _ => absurd (hn ▸ h) (by simp)

theorem lateInit_accessLevel_fill (p : AccessTokenParameters) (t : ProjectAccessToken)
    (h : p.AccessLevel = none) :
    (lateInitializeProjectAccessToken p (some t)).AccessLevel = some t.AccessLevel := by
  rw [lateInit_eq]
  simp [h]

theorem lateInit_expiresAt_fill (p : AccessTokenParameters) (t : ProjectAccessToken)
    (h : p.ExpiresAt = none) :
    (lateInitializeProjectAccessToken p (some t)).ExpiresAt = t.ExpiresAt := by
  rw [lateInit_eq]
  rcases hT : t.ExpiresAt with _ | te <;> simp [h, hT]

theorem lateInit_idem (p : AccessTokenParameters) (tok : Option ProjectAccessToken) :
    lateInitializeProjectAccessToken (lateInitializeProjectAccessToken p tok) tok =
      lateInitializeProjectAccessToken p tok := by
  cases tok with
  | none => rfl
  | some t =>
    rw [lateInit_eq, lateInit_eq]
    rcases hA : p.AccessLevel with _ | a <;> rcases hE : p.ExpiresAt with _ | e <;>
      rcases hT : t.ExpiresAt with _ | te <;> simp [hA, hE, hT]

theorem Observe_success_eq (fetch : String → Int → FetchResult) (now : Int)
    (cr : AccessToken) (pid : String) (id : Int) (t : ProjectAccessToken)
    (hname : ¬ cr.ExternalName = "")
    (hid : Atoi cr.ExternalName = .ok id)
    (hpid : cr.ForProvider.ProjectID = some pid)
    (hfetch : fetch pid id = .ok t) :
    Observe fetch now cr =
      ⟨{ ResourceExists := true
         ResourceUpToDate := !(IsRevoked (CopyFromToken cr.AtProvider t)) &&
           !(ExpiresWithin (CopyFromToken cr.AtProvider t) (effectiveThreshold cr.ForProvider) now)
         ResourceLateInitialized :=
           decide (¬ cr.ForProvider = lateInitializeProjectAccessToken cr.ForProvider (some t)) },
       none,
       { cr with AtProvider := CopyFromToken cr.AtProvider t
                 ForProvider := lateInitializeProjectAccessToken cr.ForProvider (some t) },
       [.fetchTok pid id]⟩ := by
  unfold Observe effectiveThreshold
  rw [if_neg hname, hid, hpid]
  dsimp only
  rw [hfetch]

theorem Observe_notFound_eq (fetch : String → Int → FetchResult) (now : Int)
    (cr : AccessToken) (pid : String) (id : Int)
    (hname : ¬ cr.ExternalName = "")
    (hid : Atoi cr.ExternalName = .ok id)
    (hpid : cr.ForProvider.ProjectID = some pid)
    (hfetch : fetch pid id = .notFound) :
    Observe fetch now cr = ⟨emptyObservation, none, cr, [.fetchTok pid id]⟩ := by
  unfold Observe
  rw [if_neg hname, hid, hpid]
  dsimp only
  rw [hfetch]

theorem Observe_transportErr_eq (fetch : String → Int → FetchResult) (now : Int)
    (cr : AccessToken) (pid : String) (id : Int) (msg : String)
    (hname : ¬ cr.ExternalName = "")
    (hid : Atoi cr.ExternalName = .ok id)
    (hpid : cr.ForProvider.ProjectID = some pid)
    (hfetch : fetch pid id = .transportErr msg) :
    Observe fetch now cr =
      ⟨emptyObservation, some (.wrapped msg errAccessTokentNotFound), cr,
        [.fetchTok pid id]⟩ := by
  unfold Observe
  rw [if_neg hname, hid, hpid]
  dsimp only
  rw [hfetch]

/-! ## Claims -/

/-- C1: the claim says an Update (rotate) on a resource whose external
name is a parseable integer but whose `ProjectID` is unset fails with the
missing-project-identity validation error before the remote rotate call.
The code has no such branch: `external.Update` dereferences
`*cr.Spec.ForProvider.ProjectID` with no nil check while building the
rotate call's arguments, a nil-pointer panic. This theorem evaluates the
embedded Update at the failing input: the outcome is the nil-pointer
dereference, with no remote call and no validation error. -/
theorem C1_update_nil_projectID_panics :
    Update (fun _ _ _ => Except.error "unreached") 0
      { ExternalName := "123"
        ForProvider := { ProjectID := none, ExpiresAt := none, RotateThreshold := none,
                         AccessLevel := none, Scopes := [], Name := "tok" }
        AtProvider := ⟨none, none, none, none, none, none⟩
        ObjectName := "tok" } =
      ⟨.nilPanic,
       { ExternalName := "123"
         ForProvider := { ProjectID := none, ExpiresAt := none, RotateThreshold := none,
                          AccessLevel := none, Scopes := [], Name := "tok" }
         AtProvider := ⟨none, none, none, none, none, none⟩
         ObjectName := "tok" }, []⟩ := by
  rfl

/-- C2 counterexample: the ObservedState after a successful Observe is
NOT a function of the fetched record alone. Two resources that differ
only in the previously observed `CreatedAt` (`some 11` vs `none`) fetch
the exact same remote record (which carries no `CreatedAt`/`ExpiresAt`)
and end up with different ObservedStates: `CopyFromToken` keeps the old
`CreatedAt` instead of clearing it. -/
theorem C2_observe_not_function_of_record :
    (Observe (fun _ _ => .ok ⟨7, "tok", false, true, none, none, 40, "s"⟩) 0
       { ExternalName := "7"
         ForProvider := ⟨some "1", none, none, some 40, [], "tok"⟩
         AtProvider := ⟨some 7, none, some 11, none, none, none⟩
         ObjectName := "tok" }).cr.AtProvider ≠
      (Observe (fun _ _ => .ok ⟨7, "tok", false, true, none, none, 40, "s"⟩) 0
         { ExternalName := "7"
           ForProvider := ⟨some "1", none, none, some 40, [], "tok"⟩
           AtProvider := ⟨some 7, none, none, none, none, none⟩
           ObjectName := "tok" }).cr.AtProvider := by
  decide

/-- C2 (amended): after a successful Observe fetch, the `TokenID`,
`Name`, `Active` and `Revoked` fields of ObservedState are determined by
the fetched record alone; `CreatedAt` and `ExpiresAt` are overwritten
only when present on the fetched record and otherwise retain their
previous values; hence two Observe calls fetching the same record agree
on the whole ObservedState whenever that record carries both `CreatedAt`
and `ExpiresAt`. -/
theorem C2_observed_state_replacement (o1 o2 : AccessTokenObservation)
    (t : ProjectAccessToken) :
    ((CopyFromToken o1 t).TokenID = some t.ID ∧
     (CopyFromToken o1 t).Name = some t.Name ∧
     (CopyFromToken o1 t).Active = some t.Active ∧
     (CopyFromToken o1 t).Revoked = some t.Revoked) ∧
    (t.CreatedAt = none → (CopyFromToken o1 t).CreatedAt = o1.CreatedAt) ∧
    (t.ExpiresAt = none → (CopyFromToken o1 t).ExpiresAt = o1.ExpiresAt) ∧
    (t.CreatedAt ≠ none → t.ExpiresAt ≠ none → CopyFromToken o1 t = CopyFromToken o2 t) := by
  unfold CopyFromToken
  rcases hC : t.CreatedAt with _ | c <;> rcases hE : t.ExpiresAt with _ | e <;>
    simp [hC, hE]

/-- Witness for C2 (amended): two different prior observations agree
after copying from a record that has both timestamps. -/
theorem C2_observed_state_replacement_witness :
    CopyFromToken ⟨some 1, some 2, some 3, some "a", some true, some false⟩
        ⟨9, "n", false, true, some 5, some 6, 40, "s"⟩ =
      CopyFromToken ⟨none, none, none, none, none, none⟩
        ⟨9, "n", false, true, some 5, some 6, 40, "s"⟩ :=
  (C2_observed_state_replacement ⟨some 1, some 2, some 3, some "a", some true, some false⟩
    ⟨none, none, none, none, none, none⟩
    ⟨9, "n", false, true, some 5, some 6, 40, "s"⟩).2.2.2 (by decide) (by decide)

/-- C3: whenever Update reaches the rotate call, the requested new
expiration it passes equals `now + ttl` truncated down to the start of
the day, where `ttl` is the observed `TotalDuration`, raised to twice the
desired `RotateThreshold` when that is set. -/
theorem C3_rotation_policy (rotate : String → Int → Int → Except String ProjectAccessToken)
    (now : Int) (cr : AccessToken) (pid : String) (id : Int)
    (hname : ¬ cr.ExternalName = "")
    (hid : Atoi cr.ExternalName = .ok id)
    (hpid : cr.ForProvider.ProjectID = some pid) :
    (Update rotate now cr).calls =
      [.rotateTok pid id (truncDay (now +
        (match cr.ForProvider.RotateThreshold with
         | some d => max (TotalDuration cr.AtProvider) (d * 2)
         | none => TotalDuration cr.AtProvider)))] := by
  unfold Update
  rw [if_neg hname, hid]
  dsimp only
  rw [hpid]
  dsimp only
  rcases hrot : rotate pid id (truncDay (now +
      match cr.ForProvider.RotateThreshold with
      | some d => max (TotalDuration cr.AtProvider) (d * 2)
      | none => TotalDuration cr.AtProvider)) with e | t <;> rw [hrot]

/-- Witness for C3, instantiating the spec's worked example: with
`TotalDuration = 48h` and `RotateThreshold = 30h` the ttl is
`max(48h, 60h) = 60h`, and with `now = 100ns` the requested expiration
`now + 60h` truncates to midnight of day 2, i.e. 48h in nanoseconds. -/
theorem C3_rotation_policy_witness :
    max (48 * hourNs) (30 * hourNs * 2) = 60 * hourNs ∧
    (Update (fun _ _ _ => .error "boom") 100
      { ExternalName := "9"
        ForProvider := ⟨some "1", none, some (30 * hourNs), none, [], "n"⟩
        AtProvider := ⟨some 9, some (48 * hourNs), some 0, none, none, none⟩
        ObjectName := "n" }).calls = [.rotateTok "1" 9 172800000000000] := by
  refine ⟨by norm_num [hourNs], ?_⟩
  rw [C3_rotation_policy (fun _ _ _ => .error "boom") 100
    { ExternalName := "9"
      ForProvider := ⟨some "1", none, some (30 * hourNs), none, [], "n"⟩
      AtProvider := ⟨some 9, some (48 * hourNs), some 0, none, none, none⟩
      ObjectName := "n" } "1" 9 (by decide) rfl rfl]
  decide

/-- C4: after a successful Observe fetch, the reported up-to-date flag is
exactly `!IsRevoked() && !ExpiresWithin(effectiveThreshold)` computed on
the freshly copied ObservedState, where the effective threshold is the
absolute value of the caller's `RotateThreshold` when set and the 7-day
default otherwise; and `IsRevoked` is false on an unset `Revoked` field
and the field's value otherwise. -/
theorem C4_up_to_date_flag (fetch : String → Int → FetchResult) (now : Int)
    (cr : AccessToken) (pid : String) (id : Int) (t : ProjectAccessToken)
    (hname : ¬ cr.ExternalName = "")
    (hid : Atoi cr.ExternalName = .ok id)
    (hpid : cr.ForProvider.ProjectID = some pid)
    (hfetch : fetch pid id = .ok t) :
    ((Observe fetch now cr).obs.ResourceUpToDate =
      (!(IsRevoked (CopyFromToken cr.AtProvider t)) &&
       !(ExpiresWithin (CopyFromToken cr.AtProvider t)
          (match cr.ForProvider.RotateThreshold with
           | some d => durAbs d
           | none => 7 * 24 * hourNs) now))) ∧
    (∀ o : AccessTokenObservation, IsRevoked o = o.Revoked.getD false) := by
  constructor
  · rw [Observe_success_eq fetch now cr pid id t hname hid hpid hfetch]
    rcases h : cr.ForProvider.RotateThreshold with _ | d <;>
      simp [effectiveThreshold, DefaultAccessTokenRotateThreshold, h]
  · intro o
    unfold IsRevoked
    rcases o.Revoked with _ | b <;> rfl

/-- Witness for C4: a concrete revoked token is reported not up to
date. -/
theorem C4_up_to_date_flag_witness :
    (Observe (fun _ _ => .ok ⟨7, "n", true, false, some 0, some (48 * hourNs), 40, "s"⟩) 0
       { ExternalName := "7"
         ForProvider := ⟨some "1", some (48 * hourNs), none, some 40, [], "n"⟩
         AtProvider := ⟨none, none, none, none, none, none⟩
         ObjectName := "n" }).obs.ResourceUpToDate = false := by
  rw [(C4_up_to_date_flag (fun _ _ => .ok ⟨7, "n", true, false, some 0, some (48 * hourNs), 40, "s"⟩)
    0 { ExternalName := "7"
        ForProvider := ⟨some "1", some (48 * hourNs), none, some 40, [], "n"⟩
        AtProvider := ⟨none, none, none, none, none, none⟩
        ObjectName := "n" } "1" 7 ⟨7, "n", true, false, some 0, some (48 * hourNs), 40, "s"⟩
    (by decide) rfl rfl rfl).1]
  decide

/-- C5: late-initialization never touches `ProjectID`, `Name`, `Scopes`
or `RotateThreshold`, never overwrites an already-set `AccessLevel` or
`ExpiresAt`, and fills exactly the unset `AccessLevel` and `ExpiresAt`
from the observed record. -/
theorem C5_late_init_frame (p : AccessTokenParameters) (tok : Option ProjectAccessToken) :
    ((lateInitializeProjectAccessToken p tok).ProjectID = p.ProjectID ∧
     (lateInitializeProjectAccessToken p tok).Name = p.Name ∧
     (lateInitializeProjectAccessToken p tok).Scopes = p.Scopes ∧
     (lateInitializeProjectAccessToken p tok).RotateThreshold = p.RotateThreshold) ∧
    (p.AccessLevel ≠ none →
      (lateInitializeProjectAccessToken p tok).AccessLevel = p.AccessLevel) ∧
    (p.ExpiresAt ≠ none →
      (lateInitializeProjectAccessToken p tok).ExpiresAt = p.ExpiresAt) ∧
    (∀ t, tok = some t → p.AccessLevel = none →
      (lateInitializeProjectAccessToken p tok).AccessLevel = some t.AccessLevel) ∧
    (∀ t, tok = some t → p.ExpiresAt = none →
      (lateInitializeProjectAccessToken p tok).ExpiresAt = t.ExpiresAt) := by
  refine ⟨⟨lateInit_projectID p tok, lateInit_name p tok, lateInit_scopes p tok,
    lateInit_rotateThreshold p tok⟩, ?_, ?_, ?_, ?_⟩
  · exact fun h => lateInit_accessLevel_set p tok (Option.isSome_iff_ne_none.mpr h)
  · exact fun h => lateInit_expiresAt_set p tok (Option.isSome_iff_ne_none.mpr h)
  · exact fun t ht h => ht ▸ lateInit_accessLevel_fill p t h
  · exact fun t ht h => ht ▸ lateInit_expiresAt_fill p t h

/-- Witness for C5: a caller-set `ExpiresAt` differing from the observed
one survives late-init, and an unset `AccessLevel` is filled from the
record. -/
theorem C5_late_init_frame_witness :
    (lateInitializeProjectAccessToken ⟨some "1", some 5, some 2, some 40, ["api"], "n"⟩
       (some ⟨7, "m", false, true, some 0, some 9, 30, "s"⟩)).ExpiresAt = some 5 ∧
    (lateInitializeProjectAccessToken ⟨some "1", some 5, some 2, none, ["api"], "n"⟩
       (some ⟨7, "m", false, true, some 0, some 9, 30, "s"⟩)).AccessLevel = some 30 := by
  constructor
  · exact (C5_late_init_frame ⟨some "1", some 5, some 2, some 40, ["api"], "n"⟩
      (some ⟨7, "m", false, true, some 0, some 9, 30, "s"⟩)).2.2.1 (by decide)
  · exact (C5_late_init_frame ⟨some "1", some 5, some 2, none, ["api"], "n"⟩
      (some ⟨7, "m", false, true, some 0, some 9, 30, "s"⟩)).2.2.2.1
      ⟨7, "m", false, true, some 0, some 9, 30, "s"⟩ rfl rfl

/-- C6: late-initialization is idempotent — a second application to the
result of the first changes nothing — and consequently a second Observe
that fetches the same record reports `ResourceLateInitialized = false`. -/
theorem C6_late_init_idempotent (fetch : String → Int → FetchResult)
    (now now2 : Int) (cr : AccessToken) (pid : String) (id : Int) (t : ProjectAccessToken)
    (hname : ¬ cr.ExternalName = "")
    (hid : Atoi cr.ExternalName = .ok id)
    (hpid : cr.ForProvider.ProjectID = some pid)
    (hfetch : fetch pid id = .ok t) :
    (∀ q tok, lateInitializeProjectAccessToken (lateInitializeProjectAccessToken q tok) tok =
      lateInitializeProjectAccessToken q tok) ∧
    (Observe fetch now2 ((Observe fetch now cr).cr)).obs.ResourceLateInitialized = false := by
  refine ⟨lateInit_idem, ?_⟩
  rw [Observe_success_eq fetch now cr pid id t hname hid hpid hfetch]
  rw [Observe_success_eq fetch now2
    { cr with AtProvider := CopyFromToken cr.AtProvider t
              ForProvider := lateInitializeProjectAccessToken cr.ForProvider (some t) }
    pid id t hname hid (by dsimp only; rw [lateInit_projectID]; exact hpid) hfetch]
  simp [lateInit_idem]

/-- Witness for C6: a concrete second Observe on a late-initialized
resource reports no further late-initialization. -/
theorem C6_late_init_idempotent_witness :
    (Observe (fun _ _ => .ok ⟨7, "n", false, true, some 0, some 9, 30, "s"⟩) 1
      ((Observe (fun _ _ => .ok ⟨7, "n", false, true, some 0, some 9, 30, "s"⟩) 0
        { ExternalName := "7"
          ForProvider := ⟨some "1", none, none, none, [], "n"⟩
          AtProvider := ⟨none, none, none, none, none, none⟩
          ObjectName := "n" }).cr)).obs.ResourceLateInitialized = false :=
  (C6_late_init_idempotent (fun _ _ => .ok ⟨7, "n", false, true, some 0, some 9, 30, "s"⟩)
    0 1
    { ExternalName := "7"
      ForProvider := ⟨some "1", none, none, none, [], "n"⟩
      AtProvider := ⟨none, none, none, none, none, none⟩
      ObjectName := "n" } "1" 7 ⟨7, "n", false, true, some 0, some 9, 30, "s"⟩
    (by decide) rfl rfl rfl).2

/-- C7: Observe on a resource with no identity binding (empty external
name) reports non-existence, no error and makes no remote call; and when
the fetch reports not-found, Observe reports non-existence with no error
rather than propagating a failure. -/
theorem C7_observe_absent_or_gone :
    (∀ fetch now cr, cr.ExternalName = "" →
      Observe fetch now cr = ⟨emptyObservation, none, cr, []⟩) ∧
    (∀ fetch now cr pid id, ¬ cr.ExternalName = "" → Atoi cr.ExternalName = .ok id →
      cr.ForProvider.ProjectID = some pid → fetch pid id = .notFound →
      Observe fetch now cr = ⟨emptyObservation, none, cr, [.fetchTok pid id]⟩) := by
  constructor
  · intro fetch now cr h
    unfold Observe
    rw [if_pos h]
  · intro fetch now cr pid id h1 h2 h3 h4
    exact Observe_notFound_eq fetch now cr pid id h1 h2 h3 h4

/-- Witness for C7: a resource with no external name, and a resource
whose fetch reports not-found. -/
theorem C7_observe_absent_or_gone_witness :
    Observe (fun _ _ => .notFound) 0
      { ExternalName := ""
        ForProvider := ⟨some "1", none, none, none, [], "n"⟩
        AtProvider := ⟨none, none, none, none, none, none⟩
        ObjectName := "n" } =
      ⟨emptyObservation, none,
       { ExternalName := ""
         ForProvider := ⟨some "1", none, none, none, [], "n"⟩
         AtProvider := ⟨none, none, none, none, none, none⟩
         ObjectName := "n" }, []⟩ ∧
    Observe (fun _ _ => .notFound) 0
      { ExternalName := "7"
        ForProvider := ⟨some "1", none, none, none, [], "n"⟩
        AtProvider := ⟨none, none, none, none, none, none⟩
        ObjectName := "n" } =
      ⟨emptyObservation, none,
       { ExternalName := "7"
         ForProvider := ⟨some "1", none, none, none, [], "n"⟩
         AtProvider := ⟨none, none, none, none, none, none⟩
         ObjectName := "n" }, [.fetchTok "1" 7]⟩ :=
  ⟨C7_observe_absent_or_gone.1 (fun _ _ => .notFound) 0 _ rfl,
   C7_observe_absent_or_gone.2 (fun _ _ => .notFound) 0
     { ExternalName := "7"
       ForProvider := ⟨some "1", none, none, none, [], "n"⟩
       AtProvider := ⟨none, none, none, none, none, none⟩
       ObjectName := "n" } "1" 7 (by decide) rfl rfl rfl⟩

/-- C8: Create on a resource with unset `ProjectID` fails with the
missing-project-identity validation error and makes no remote call; and
Delete on a resource whose external name does not parse as an integer
fails with the external-name validation error and makes no remote
call. -/
theorem C8_validation_before_remote :
    (∀ createRemote cr, cr.ForProvider.ProjectID = none →
      Create createRemote cr =
        ⟨⟨false, []⟩, some (.simple errMissingProjectID), cr, []⟩) ∧
    (∀ revoke cr e, Atoi cr.ExternalName = .error e →
      Delete revoke cr = ⟨some (.simple errExternalNameNotInt), cr, []⟩) := by
  constructor
  · intro createRemote cr h
    unfold Create
    rw [h]
  · intro revoke cr e h
    unfold Delete
    rw [h]

/-- Witness for C8: Create with nil `ProjectID`, and Delete with the
non-integer external name string. -/
theorem C8_validation_before_remote_witness :
    Create (fun _ _ => .error "unreached")
      { ExternalName := ""
        ForProvider := ⟨none, none, none, none, [], "n"⟩
        AtProvider := ⟨none, none, none, none, none, none⟩
        ObjectName := "n" } =
      ⟨⟨false, []⟩, some (.simple errMissingProjectID),
       { ExternalName := ""
         ForProvider := ⟨none, none, none, none, [], "n"⟩
         AtProvider := ⟨none, none, none, none, none, none⟩
         ObjectName := "n" }, []⟩ ∧
    Delete (fun _ _ => some "unreached")
      { ExternalName := "abc"
        ForProvider := ⟨some "1", none, none, none, [], "n"⟩
        AtProvider := ⟨none, none, none, none, none, none⟩
        ObjectName := "n" } =
      ⟨some (.simple errExternalNameNotInt),
       { ExternalName := "abc"
         ForProvider := ⟨some "1", none, none, none, [], "n"⟩
         AtProvider := ⟨none, none, none, none, none, none⟩
         ObjectName := "n" }, []⟩ :=
  ⟨C8_validation_before_remote.1 (fun _ _ => .error "unreached") _ rfl,
   C8_validation_before_remote.2 (fun _ _ => some "unreached")
     { ExternalName := "abc"
       ForProvider := ⟨some "1", none, none, none, [], "n"⟩
       AtProvider := ⟨none, none, none, none, none, none⟩
       ObjectName := "n" }
     "strconv.Atoi: parsing \"abc\": invalid syntax" rfl⟩

/-- C9: `ExpiresWithin d` is false on an unset expiry; otherwise it is
true exactly when the expiry minus the absolute value of `d` falls
strictly before the current instant; and for a token expiring in exactly
7 days, a 48h threshold reports false while an 8-day threshold reports
true. -/
theorem C9_expires_within (o : AccessTokenObservation) (d now e : Int) :
    (o.ExpiresAt = none → ExpiresWithin o d now = false) ∧
    (o.ExpiresAt = some e → (ExpiresWithin o d now = true ↔ e - durAbs d < now)) ∧
    ExpiresWithin ⟨none, some (now + 7 * 24 * hourNs), none, none, none, none⟩
      (48 * hourNs) now = false ∧
    ExpiresWithin ⟨none, some (now + 7 * 24 * hourNs), none, none, none, none⟩
      (8 * 24 * hourNs) now = true := by
  refine ⟨?_, ?_, ?_, ?_⟩
  · intro h
    unfold ExpiresWithin
    rw [h]
  · intro h
    unfold ExpiresWithin
    rw [h]
    simp
  · unfold ExpiresWithin
    simp only [decide_eq_false_iff_not, not_lt]
    norm_num [durAbs, hourNs]
    omega
  · unfold ExpiresWithin
    simp only [decide_eq_true_eq]
    norm_num [durAbs, hourNs]
    omega

/-- Witness for C9: unset expiry is never "expiring soon", and a negative
threshold is used by absolute value. -/
theorem C9_expires_within_witness :
    ExpiresWithin ⟨none, none, none, none, none, none⟩ (48 * hourNs) 0 = false ∧
    ExpiresWithin ⟨none, some 10, none, none, none, none⟩ (-3) 8 = true := by
  constructor
  · exact (C9_expires_within ⟨none, none, none, none, none, none⟩ (48 * hourNs) 0 0).1 rfl
  · exact ((C9_expires_within ⟨none, some 10, none, none, none, none⟩ (-3) 8 10).2.1 rfl).mpr
      (by norm_num [durAbs])

/-- C10: whenever the remote fetch, create or rotate call fails, the
operation returns that failure wrapped with the operation's context and
leaves the resource untouched — same observed state, same external name —
and emits no connection details. -/
theorem C10_remote_error_preserves_state :
    (∀ fetch now cr pid id msg, ¬ cr.ExternalName = "" → Atoi cr.ExternalName = .ok id →
      cr.ForProvider.ProjectID = some pid → fetch pid id = FetchResult.transportErr msg →
      Observe fetch now cr =
        ⟨emptyObservation, some (.wrapped msg errAccessTokentNotFound), cr,
          [.fetchTok pid id]⟩) ∧
    (∀ createRemote cr pid e, cr.ForProvider.ProjectID = some pid →
      createRemote pid (GenerateCreateProjectAccessTokenOptions cr.ObjectName cr.ForProvider)
        = .error e →
      Create createRemote cr =
        ⟨⟨false, []⟩, some (.wrapped e errCreateFailed), cr, [.createTok pid]⟩) ∧
    (∀ rotate now cr pid id e, ¬ cr.ExternalName = "" → Atoi cr.ExternalName = .ok id →
      cr.ForProvider.ProjectID = some pid →
      (∀ x, rotate pid id x = Except.error e) →
      (Update rotate now cr).result = .err (.wrapped e errRotationFailed) ∧
      (Update rotate now cr).cr = cr) := by
  refine ⟨?_, ?_, ?_⟩
  · intro fetch now cr pid id msg h1 h2 h3 h4
    exact Observe_transportErr_eq fetch now cr pid id msg h1 h2 h3 h4
  · intro createRemote cr pid e hpid herr
    unfold Create
    rw [hpid]
    dsimp only
    rw [herr]
  · intro rotate now cr pid id e hname hid hpid hrot
    unfold Update
    rw [if_neg hname, hid]
    dsimp only
    rw [hpid]
    dsimp only
    rw [hrot]
    exact ⟨rfl, rfl⟩

/-- Witness for C10: concrete failing fetch, create and rotate calls all
leave the resource as it was. -/
theorem C10_remote_error_preserves_state_witness :
    Observe (fun _ _ => .transportErr "boom") 0
      { ExternalName := "7"
        ForProvider := ⟨some "1", none, none, none, [], "n"⟩
        AtProvider := ⟨some 7, some 9, some 0, some "n", some false, some true⟩
        ObjectName := "n" } =
      ⟨emptyObservation, some (.wrapped "boom" errAccessTokentNotFound),
       { ExternalName := "7"
         ForProvider := ⟨some "1", none, none, none, [], "n"⟩
         AtProvider := ⟨some 7, some 9, some 0, some "n", some false, some true⟩
         ObjectName := "n" }, [.fetchTok "1" 7]⟩ ∧
    Create (fun _ _ => .error "boom")
      { ExternalName := ""
        ForProvider := ⟨some "1", none, none, none, [], "n"⟩
        AtProvider := ⟨none, none, none, none, none, none⟩
        ObjectName := "n" } =
      ⟨⟨false, []⟩, some (.wrapped "boom" errCreateFailed),
       { ExternalName := ""
         ForProvider := ⟨some "1", none, none, none, [], "n"⟩
         AtProvider := ⟨none, none, none, none, none, none⟩
         ObjectName := "n" }, [.createTok "1"]⟩ ∧
    (Update (fun _ _ _ => .error "boom") 0
      { ExternalName := "7"
        ForProvider := ⟨some "1", none, none, none, [], "n"⟩
        AtProvider := ⟨some 7, some 9, some 0, some "n", some false, some true⟩
        ObjectName := "n" }).cr =
      { ExternalName := "7"
        ForProvider := ⟨some "1", none, none, none, [], "n"⟩
        AtProvider := ⟨some 7, some 9, some 0, some "n", some false, some true⟩
        ObjectName := "n" } :=
  ⟨C10_remote_error_preserves_state.1 (fun _ _ => .transportErr "boom") 0
     { ExternalName := "7"
       ForProvider := ⟨some "1", none, none, none, [], "n"⟩
       AtProvider := ⟨some 7, some 9, some 0, some "n", some false, some true⟩
       ObjectName := "n" } "1" 7 "boom" (by decide) rfl rfl rfl,
   C10_remote_error_preserves_state.2.1 (fun _ _ => .error "boom")
     { ExternalName := ""
       ForProvider := ⟨some "1", none, none, none, [], "n"⟩
       AtProvider := ⟨none, none, none, none, none, none⟩
       ObjectName := "n" } "1" "boom" rfl rfl,
   (C10_remote_error_preserves_state.2.2 (fun _ _ _ => .error "boom") 0
     { ExternalName := "7"
       ForProvider := ⟨some "1", none, none, none, [], "n"⟩
       AtProvider := ⟨some 7, some 9, some 0, some "n", some false, some true⟩
       ObjectName := "n" } "1" 7 "boom" (by decide) rfl rfl (fun _ => rfl)).2⟩

end GitlabAccessTokens
